import Mathlib

/-!
Verification of the email admissibility pipeline of the law-funnel server
(`EmailValidationService` in the services layer).

Strings are modelled as Lean `String`s; the character-level operations of the
JavaScript source (`trim`, `toLowerCase`, `split`, `includes`, `startsWith`,
`endsWith`) are embedded as executable functions on the underlying `List Char`.
DNS lookups (`dns.resolveMx`, `dns.resolve4` through `promisify`) are modelled
as an abstract `Resolver` whose calls either return a record set (modelled `Unit`)
or throw a `DnsErr`; a JavaScript `try { e } catch (err) { h }` around a lookup
is embedded as a `match` on the `Except` value, and `await` of a fallible
computation as propagation of the `.error` branch.
-/

/-- Kinds of DNS lookup failure (NXDOMAIN, timeout, resolver error); the
service's catch blocks never inspect the kind. -/
inductive DnsErr where
  | timeout
  | nxdomain
  | resolverError
deriving DecidableEq, Repr

/-- Abstract DNS resolver: `mx` models `promisify(dns.resolveMx)`, `a` models
`promisify(dns.resolve4)`.  A call either succeeds or throws a `DnsErr`. -/
structure Resolver where
  mx : String → Except DnsErr Unit
  a : String → Except DnsErr Unit

/-- `EmailValidationResult` interface of the source.  The source declares
`suggestions` optional but always initialises it to `[]`, so it is modelled
as a plain list. -/
structure EmailValidationResult where
  isValid : Bool
  errors : List String
  warnings : List String
  suggestions : List String
deriving DecidableEq, Repr

/-- Result shape of `validateLocalPart`. -/
structure LocalPartResult where
  isValid : Bool
  errors : List String
deriving DecidableEq, Repr

/-- Result shape of `validateDomain`. -/
structure DomainStageResult where
  isValid : Bool
  errors : List String
  warnings : List String
deriving DecidableEq, Repr

/-- Whitespace characters removed by `String.prototype.trim` (restricted to the
ASCII whitespace relevant to email input). -/
def isWsChar (c : Char) : Bool :=
  c == ' ' || c == '\t' || c == '\n' || c == '\r'

/-- `s.trim()` on the character list. -/
def trimChars (s : List Char) : List Char :=
  ((s.dropWhile isWsChar).reverse.dropWhile isWsChar).reverse

/-- `s.toLowerCase()` on the character list (ASCII case mapping). -/
def lowerChars (s : List Char) : List Char :=
  s.map Char.toLower

/-- `email.trim().toLowerCase()`, the normalisation performed at the top of
both `validateEmail` and `validateEmailFormat`. -/
def normalizeEmail (email : String) : String :=
  String.mk (lowerChars (trimChars email.data))

/-- JavaScript `s.split(sep)` for a single-character separator:
`"a@b@".split("@") = ["a","b",""]`, `"".split("@") = [""]`. -/
def splitOnChar (sep : Char) : List Char → List (List Char)
  | [] => [[]]
  | c :: cs =>
    if c == sep then [] :: splitOnChar sep cs
    else
      match splitOnChar sep cs with
      | [] => [[c]]
      | h :: t => (c :: h) :: t

/-- `[a-zA-Z0-9]` of the source's regexes. -/
def isAlnumChar (c : Char) : Bool :=
  c.isAlpha || c.isDigit

/-- The punctuation admitted in the local part by the format regex:
`. ! # $ % & apostrophe * + / = ? ^ _ backtick lbrace | rbrace ~ -`
(character codes 39, 96, 123 and 125 written numerically). -/
def localSpecials : List Char :=
  ['.', '!', '#', '$', '%', '&', Char.ofNat 39, '*', '+', '/', '=', '?',
   '^', '_', Char.ofNat 96, Char.ofNat 123, '|', Char.ofNat 125, '~', '-']

/-- The local-part character class of the format regex. -/
def isLocalChar (c : Char) : Bool :=
  isAlnumChar c || localSpecials.contains c

/-- One domain label of the format regex:
`[a-zA-Z0-9](?:[a-zA-Z0-9-]{0,61}[a-zA-Z0-9])?` — a leading alphanumeric
character, optionally followed by up to 61 alphanumeric-or-hyphen characters
and a final alphanumeric character (so 1 to 63 characters in all, with
hyphens only in the interior). -/
def matchesLabel : List Char → Bool
  | [] => false
  | c :: cs =>
    isAlnumChar c &&
      (cs.isEmpty ||
        (decide (cs.length ≤ 62) &&
          cs.dropLast.all (fun d => isAlnumChar d || d == '-') &&
          (match cs.getLast? with
           | some d => isAlnumChar d
           | none => false)))

/-- The domain part of the format regex: `label(?:\.label)*`.  Since a label
never contains a dot, the regex decomposition coincides with splitting on
`.` and checking every component. -/
def matchesDomain (d : List Char) : Bool :=
  (splitOnChar '.' d).all matchesLabel

/-- `validateBasicFormat` (source lines 459-463): the anchored regex
`^[local]+@label(?:\.label)*$`.  Neither the local-part class nor the label
grammar contains `@`, so a match forces exactly one `@`; splitting there is
the exact denotation of the regex. -/
def validateBasicFormat (email : String) : Bool :=
  match splitOnChar '@' email.data with
  | [localPart, domain] =>
    !localPart.isEmpty && localPart.all isLocalChar && matchesDomain domain
  | _ => false

/-- `localPart.includes("..")`. -/
def hasConsecDots : List Char → Bool
  | c₁ :: c₂ :: rest => (c₁ == '.' && c₂ == '.') || hasConsecDots (c₂ :: rest)
  | _ => false

/-- `validateLocalPart` (source lines 468-491): four independent checks whose
messages accumulate in source order; `isValid` is `errors.length === 0`. -/
def validateLocalPart (localPart : String) : LocalPartResult :=
  let l := localPart.data
  let errors :=
    (if l.length == 0 then ["Email address cannot be empty"] else []) ++
    (if decide (l.length > 64) then
      ["Local part of email address is too long (maximum 64 characters)"] else []) ++
    (if l.head? == some '.' || l.getLast? == some '.' then
      ["Email address cannot start or end with a dot"] else []) ++
    (if hasConsecDots l then ["Email address cannot contain consecutive dots"] else [])
  { isValid := errors.isEmpty, errors := errors }

/-- One dotted octet of the IPv4 regex:
`25[0-5]|2[0-4][0-9]|[01]?[0-9][0-9]?`. -/
def matchOctet (s : List Char) : Bool :=
  match s with
  | [a] => a.isDigit
  | [a, b] => a.isDigit && b.isDigit
  | [a, b, c] =>
    (a == '2' && b == '5' && ['0', '1', '2', '3', '4', '5'].contains c) ||
    (a == '2' && ['0', '1', '2', '3', '4'].contains b && c.isDigit) ||
    ((a == '0' || a == '1') && b.isDigit && c.isDigit)
  | _ => false

/-- One group of the IPv6 regex: `[0-9a-fA-F]{1,4}`. -/
def matchHexGroup (s : List Char) : Bool :=
  !s.isEmpty && decide (s.length ≤ 4) &&
    s.all (fun c =>
      c.isDigit || ['a', 'b', 'c', 'd', 'e', 'f'].contains c ||
        ['A', 'B', 'C', 'D', 'E', 'F'].contains c)

/-- `isIPAddress` (source lines 566-570): the anchored IPv4 regex (four
dot-separated octets) or the anchored full-form IPv6 regex (eight
colon-separated hex groups). -/
def isIPAddress (str : String) : Bool :=
  (let os := splitOnChar '.' str.data
   os.length == 4 && os.all matchOctet) ||
  (let gs := splitOnChar ':' str.data
   gs.length == 8 && gs.all matchHexGroup)

/-- `DISPOSABLE_DOMAINS` (source lines 359-366), verbatim, including the
duplicated `guerrillamailblock.com` entry (a `Set` in the source; membership
is unaffected). -/
def DISPOSABLE_DOMAINS : List String :=
  ["10minutemail.com", "10minutemail.net", "guerrillamail.com", "guerrillamail.org",
   "mailinator.com", "tempmail.org", "temp-mail.org", "yopmail.com", "dispostable.com",
   "throwaway.email", "fakemailgenerator.com", "maildrop.cc", "mailnesia.com",
   "example.com", "example.org", "example.net", "test.com", "localhost",
   "sharklasers.com", "guerrillamailblock.com", "pokemail.net", "spam4.me",
   "grr.la", "guerrillamail.biz", "guerrillamail.de", "guerrillamailblock.com"]

/-- `ROLE_BASED_PREFIXES` (source lines 369-375), verbatim. -/
def ROLE_BASED_PREFIXES : List String :=
  ["admin", "administrator", "support", "help", "info", "contact", "sales",
   "marketing", "noreply", "no-reply", "donotreply", "do-not-reply",
   "webmaster", "postmaster", "hostmaster", "abuse", "security",
   "privacy", "legal", "compliance", "billing", "accounts", "hr",
   "careers", "jobs", "newsletter", "news", "notification", "notifications"]

/-- `DOMAIN_CORRECTIONS` (source lines 378-394), verbatim. -/
def DOMAIN_CORRECTIONS : List (String × String) :=
  [("gmial.com", "gmail.com"),
   ("gmai.com", "gmail.com"),
   ("gmail.co", "gmail.com"),
   ("gmail.cm", "gmail.com"),
   ("hotmial.com", "hotmail.com"),
   ("hotmai.com", "hotmail.com"),
   ("hotmail.co", "hotmail.com"),
   ("yahoo.co", "yahoo.com"),
   ("yahooo.com", "yahoo.com"),
   ("yaho.com", "yahoo.com"),
   ("outlok.com", "outlook.com"),
   ("outlook.co", "outlook.com"),
   ("outloo.com", "outlook.com"),
   ("icloud.co", "icloud.com"),
   ("icluod.com", "icloud.com")]

/-- `isDisposableEmail` (source lines 545-547). -/
def isDisposableEmail (domain : String) : Bool :=
  DISPOSABLE_DOMAINS.contains domain

/-- `isRoleBasedEmail` (source lines 552-554). -/
def isRoleBasedEmail (localPart : String) : Bool :=
  ROLE_BASED_PREFIXES.contains localPart

/-- `suggestDomainCorrection` (source lines 559-561); every correction value is
a non-empty string, so `get(...) || null` is a plain map lookup. -/
def suggestDomainCorrection (domain : String) : Option String :=
  DOMAIN_CORRECTIONS.lookup domain

/-- `validateDomain` (source lines 496-540).  The structural checks return
early exactly where the source does; the MX-then-A fallback is the source's
nested `try`/`catch`, embedded as matches on the resolver's `Except` values;
the final result computes `isValid` as `errors.length === 0`. -/
def validateDomain (r : Resolver) (domain : String) : Except DnsErr DomainStageResult :=
  let d := domain.data
  if d.length == 0 then
    .ok { isValid := false, errors := ["Domain cannot be empty"], warnings := [] }
  else
    let errors₀ :=
      if decide (d.length > 253) then
        ["Domain name is too long (maximum 253 characters)"] else []
    if !(d.contains '.') || d.getLast? == some '.' then
      .ok { isValid := false, errors := errors₀ ++ ["Invalid domain format"], warnings := [] }
    else if domain == "localhost" || isIPAddress domain then
      .ok { isValid := false,
            errors := errors₀ ++ ["Email addresses with localhost or IP addresses are not allowed"],
            warnings := [] }
    else
      let dnsOutcome : List String × List String :=
        match r.mx domain with
        | .ok _ => (errors₀, [])
        | .error _ =>
          match r.a domain with
          | .ok _ => (errors₀, ["Domain exists but has no MX record for email delivery"])
          | .error _ => (errors₀ ++ ["Domain does not exist or cannot receive emails"], [])
      .ok { isValid := dnsOutcome.1.isEmpty, errors := dnsOutcome.1, warnings := dnsOutcome.2 }

/-- The local part of `trimmedEmail.split("@")` destructuring. -/
def emailLocalPart (t : String) : String :=
  String.mk ((splitOnChar '@' t.data).headD [])

/-- The domain part of `trimmedEmail.split("@")` destructuring. -/
def emailDomain (t : String) : String :=
  String.mk (((splitOnChar '@' t.data).drop 1).headD [])

/-- `validateEmail` (source lines 399-454).  The mutable `result` object is
threaded as pairs `pᵢ = (isValid, errors)` after each mutation site; `await
this.validateDomain(domain)` is the `match` that would propagate an
uncaught `.error`. -/
def validateEmail (r : Resolver) (email : String) : Except DnsErr EmailValidationResult :=
  let trimmedEmail := normalizeEmail email
  if !validateBasicFormat trimmedEmail then
    .ok { isValid := false, errors := ["Invalid email format"], warnings := [], suggestions := [] }
  else
    let localPart := emailLocalPart trimmedEmail
    let domain := emailDomain trimmedEmail
    let localPartValidation := validateLocalPart localPart
    let p₁ : Bool × List String :=
      if !localPartValidation.isValid then (false, localPartValidation.errors)
      else (true, [])
    match validateDomain r domain with
    | .error err => .error err
    | .ok domainValidation =>
      let p₂ : Bool × List String :=
        if !domainValidation.isValid then (false, p₁.2 ++ domainValidation.errors) else p₁
      let warnings₁ := domainValidation.warnings
      let p₃ : Bool × List String :=
        if isDisposableEmail domain then
          (false, p₂.2 ++
            ["Disposable email addresses are not allowed. Please use a permanent email address."])
        else p₂
      let warnings₂ :=
        if isRoleBasedEmail localPart then
          warnings₁ ++ ["Role-based email addresses are not recommended for personal accounts"]
        else warnings₁
      let suggestions :=
        match suggestDomainCorrection domain with
        | some suggestion => ["Did you mean: " ++ localPart ++ "@" ++ suggestion ++ "?"]
        | none => []
      .ok { isValid := p₃.1, errors := p₃.2, warnings := warnings₂, suggestions := suggestions }

/-- `validateEmailFormat` (source lines 575-577): the synchronous quick check. -/
def validateEmailFormat (email : String) : Bool :=
  validateBasicFormat (normalizeEmail email)

/-- Whether an `Except` value is a success. -/
def exceptIsOk {ε α : Type} : Except ε α → Bool
  | .ok _ => true
  | .error _ => false

/-- Modelled from the spec for claim C3, one domain label of the claimed
grammar: 1 to 63 characters, alphanumeric with internal hyphens only, so
non-empty, length at most 63, every character alphanumeric or hyphen, and the
first and last characters alphanumeric. -/
def specLabelOk (lab : List Char) : Bool :=
  !lab.isEmpty && decide (lab.length ≤ 63) &&
    lab.all (fun c => isAlnumChar c || c == '-') &&
    (match lab.head? with
     | some c => isAlnumChar c
     | none => false) &&
    (match lab.getLast? with
     | some c => isAlnumChar c
     | none => false)

/-- Modelled from the spec for claim C3, the claimed acceptance condition of
the syntax stage: exactly one `@`, a non-empty local part over the allowed
character class, and a domain of dot-separated valid labels with at least one
dot. -/
def claimSyntaxAccepts (s : String) : Bool :=
  match splitOnChar '@' s.data with
  | [localPart, domain] =>
    !localPart.isEmpty && localPart.all isLocalChar &&
      domain.contains '.' &&
      (splitOnChar '.' domain).all specLabelOk
  | _ => false

/-- Claim C3 amended: as `claimSyntaxAccepts` but with the at-least-one-dot
requirement dropped — the domain is any sequence of dot-separated valid
labels, a single label with no dot included. -/
def claimSyntaxAcceptsAmended (s : String) : Bool :=
  match splitOnChar '@' s.data with
  | [localPart, domain] =>
    !localPart.isEmpty && localPart.all isLocalChar &&
      (splitOnChar '.' domain).all specLabelOk
  | _ => false

/-- A resolver for which every lookup succeeds. -/
def allOkResolver : Resolver :=
  { mx := fun _ => .ok (), a := fun _ => .ok () }

/-- A resolver for which every lookup fails with NXDOMAIN. -/
def allFailResolver : Resolver :=
  { mx := fun _ => .error .nxdomain, a := fun _ => .error .nxdomain }

/-- A resolver whose MX lookups time out while A lookups succeed. -/
def mxDownResolver : Resolver :=
  { mx := fun _ => .error .timeout, a := fun _ => .ok () }

example : validateEmail allOkResolver "user@lawfirm.com" =
    .ok { isValid := true, errors := [], warnings := [], suggestions := [] } := by rfl

example : validateEmail allOkResolver "bob@mailinator.com" =
    .ok { isValid := false,
          errors := ["Disposable email addresses are not allowed. Please use a permanent email address."],
          warnings := [], suggestions := [] } := by rfl

example : validateEmail allFailResolver "bob@gmial.com" =
    .ok { isValid := false,
          errors := ["Domain does not exist or cannot receive emails"],
          warnings := [],
          suggestions := ["Did you mean: bob@gmail.com?"] } := by rfl

example : validateBasicFormat "a@b" = true := by rfl

example : validateEmail mxDownResolver "  Admin@Lawfirm.COM " =
    .ok { isValid := true, errors := [],
          warnings := ["Domain exists but has no MX record for email delivery",
                       "Role-based email addresses are not recommended for personal accounts"],
          suggestions := [] } := by rfl

/-! ### Stage-level lemmas -/

theorem validateLocalPart_isValid_iff (s : String) :
    (validateLocalPart s).isValid = true ↔ (validateLocalPart s).errors = [] := by
  simp [validateLocalPart, List.isEmpty_iff]

theorem validateDomain_isOk (r : Resolver) (d : String) :
    ∃ res, validateDomain r d = .ok res := by
  unfold validateDomain
  dsimp only
  repeat' split
  all_goals exact ⟨_, rfl⟩

theorem validateDomain_isValid_iff (r : Resolver) (d : String) (res : DomainStageResult)
    (h : validateDomain r d = .ok res) :
    res.isValid = true ↔ res.errors = [] := by
  unfold validateDomain at h
  dsimp only at h
  repeat' split at h
  all_goals simp only [Except.ok.injEq] at h
  all_goals subst h
  all_goals simp [List.isEmpty_iff]

theorem validateEmail_syntaxFail (r : Resolver) (e : String)
    (h : validateBasicFormat (normalizeEmail e) = false) :
    validateEmail r e =
      .ok { isValid := false, errors := ["Invalid email format"],
            warnings := [], suggestions := [] } := by
  simp [validateEmail, h]

theorem validateEmail_main (r : Resolver) (e : String) (dres : DomainStageResult)
    (h : validateBasicFormat (normalizeEmail e) = true)
    (hd : validateDomain r (emailDomain (normalizeEmail e)) = .ok dres) :
    validateEmail r e = .ok {
      isValid := (validateLocalPart (emailLocalPart (normalizeEmail e))).isValid &&
        dres.isValid && !isDisposableEmail (emailDomain (normalizeEmail e)),
      errors := (validateLocalPart (emailLocalPart (normalizeEmail e))).errors ++
        dres.errors ++
        (if isDisposableEmail (emailDomain (normalizeEmail e)) then
          ["Disposable email addresses are not allowed. Please use a permanent email address."]
         else []),
      warnings := dres.warnings ++
        (if isRoleBasedEmail (emailLocalPart (normalizeEmail e)) then
          ["Role-based email addresses are not recommended for personal accounts"]
         else []),
      suggestions :=
        match suggestDomainCorrection (emailDomain (normalizeEmail e)) with
        | some s => ["Did you mean: " ++ emailLocalPart (normalizeEmail e) ++ "@" ++ s ++ "?"]
        | none => [] } := by
  have hlp := validateLocalPart_isValid_iff (emailLocalPart (normalizeEmail e))
  have hdv := validateDomain_isValid_iff r (emailDomain (normalizeEmail e)) dres hd
  simp only [validateEmail, h, Bool.not_true, Bool.false_eq_true, if_false, hd]
  by_cases h₁ : (validateLocalPart (emailLocalPart (normalizeEmail e))).isValid <;>
  by_cases h₂ : dres.isValid <;>
  by_cases h₃ : isDisposableEmail (emailDomain (normalizeEmail e)) <;>
  by_cases h₄ : isRoleBasedEmail (emailLocalPart (normalizeEmail e)) <;>
    simp_all

theorem matchesLabel_eq_specLabelOk (lab : List Char) :
    matchesLabel lab = specLabelOk lab := by
  match lab with
  | [] => rfl
  | [c] =>
    simp only [matchesLabel, specLabelOk, List.isEmpty_cons, List.isEmpty_nil, Bool.true_or,
      Bool.and_true, Bool.not_false, List.length_cons, List.length_nil, List.all_cons,
      List.all_nil, List.head?_cons, List.getLast?_singleton]
    cases hc : isAlnumChar c <;> simp [hc]
  | c :: d :: ds =>
    have hne : (d :: ds) ≠ ([] : List Char) := by simp
    have hget : (d :: ds).getLast? = some ((d :: ds).getLast hne) :=
      List.getLast?_eq_getLast _ hne
    have hlen : decide ((c :: d :: ds).length ≤ 63) = decide ((d :: ds).length ≤ 62) :=
      decide_eq_decide.mpr (by simp only [List.length_cons]; omega)
    have hsplit : (d :: ds).dropLast ++ [(d :: ds).getLast hne] = d :: ds :=
      List.dropLast_append_getLast hne
    have hall : (d :: ds).all (fun x => isAlnumChar x || x == '-') =
        ((d :: ds).dropLast.all (fun x => isAlnumChar x || x == '-') &&
          (isAlnumChar ((d :: ds).getLast hne) || (d :: ds).getLast hne == '-')) := by
      conv_lhs => rw [← hsplit]
      simp [List.all_append]
    simp only [matchesLabel, specLabelOk, List.isEmpty_cons, Bool.false_or, Bool.not_false,
      List.head?_cons, List.getLast?_cons_cons, hget, hlen, List.all_cons, hall]
    cases hA : isAlnumChar c <;>
    cases hG : isAlnumChar ((d :: ds).getLast hne) <;>
    cases hL : decide ((d :: ds).length ≤ 62) <;>
    cases hD : (d :: ds).dropLast.all (fun x => isAlnumChar x || x == '-') <;>
      simp [hA, hG, hL, hD]

theorem validateLocalPart_errors_mem (s : String) (m : String)
    (h : m ∈ (validateLocalPart s).errors) :
    m = "Email address cannot be empty" ∨
    m = "Local part of email address is too long (maximum 64 characters)" ∨
    m = "Email address cannot start or end with a dot" ∨
    m = "Email address cannot contain consecutive dots" := by
  unfold validateLocalPart at h
  dsimp only at h
  repeat' split at h
  all_goals simp at h
  all_goals tauto

theorem validateDomain_errors_mem (r : Resolver) (d : String) (res : DomainStageResult)
    (hres : validateDomain r d = .ok res) (m : String) (h : m ∈ res.errors) :
    m = "Domain cannot be empty" ∨
    m = "Domain name is too long (maximum 253 characters)" ∨
    m = "Invalid domain format" ∨
    m = "Email addresses with localhost or IP addresses are not allowed" ∨
    m = "Domain does not exist or cannot receive emails" := by
  unfold validateDomain at hres
  dsimp only at hres
  repeat' split at hres
  all_goals simp only [Except.ok.injEq] at hres
  all_goals subst hres
  all_goals simp at h
  all_goals tauto

/-! ### Claims -/

/-- C1: the verdict produced by `validateEmail` satisfies `isValid = true` iff
its error sequence is empty; warnings and suggestions never affect `isValid`. -/
theorem validateEmail_isValid_iff_no_errors (r : Resolver) (e : String)
    (v : EmailValidationResult) (h : validateEmail r e = .ok v) :
    v.isValid = true ↔ v.errors = [] := by
  cases hb : validateBasicFormat (normalizeEmail e) with
  | false =>
    rw [validateEmail_syntaxFail r e hb] at h
    simp only [Except.ok.injEq] at h
    subst h
    simp
  | true =>
    obtain ⟨dres, hd⟩ := validateDomain_isOk r (emailDomain (normalizeEmail e))
    rw [validateEmail_main r e dres hb hd] at h
    simp only [Except.ok.injEq] at h
    subst h
    have hlp := validateLocalPart_isValid_iff (emailLocalPart (normalizeEmail e))
    have hdv := validateDomain_isValid_iff r (emailDomain (normalizeEmail e)) dres hd
    by_cases h₁ : (validateLocalPart (emailLocalPart (normalizeEmail e))).isValid <;>
    by_cases h₂ : dres.isValid <;>
    by_cases h₃ : isDisposableEmail (emailDomain (normalizeEmail e)) <;>
      simp_all

/-- Witness for C1 at a concrete input and resolver. -/
theorem validateEmail_isValid_iff_no_errors_witness :
    (({ isValid := true, errors := [], warnings := [], suggestions := [] } :
        EmailValidationResult).isValid = true ↔
      ({ isValid := true, errors := [], warnings := [], suggestions := [] } :
        EmailValidationResult).errors = []) :=
  validateEmail_isValid_iff_no_errors allOkResolver "user@lawfirm.com" _ (by rfl)

/-- C2: when the trimmed, lower-cased input fails the syntax stage,
`validateEmail` returns immediately with `isValid = false`, exactly one error,
and empty warnings and suggestions, for every resolver behaviour — so the
resolver is never consulted and no later stage contributes anything. -/
theorem validateEmail_syntax_short_circuit (r : Resolver) (e : String)
    (h : validateBasicFormat (normalizeEmail e) = false) :
    validateEmail r e =
      .ok { isValid := false, errors := ["Invalid email format"],
            warnings := [], suggestions := [] } :=
  validateEmail_syntaxFail r e h

/-- Witness for C2 at a concrete input lacking an `@`. -/
theorem validateEmail_syntax_short_circuit_witness :
    validateEmail allOkResolver "plainaddress" =
      .ok { isValid := false, errors := ["Invalid email format"],
            warnings := [], suggestions := [] } :=
  validateEmail_syntax_short_circuit allOkResolver "plainaddress" (by rfl)

/-- C3 counterexample: the syntax stage accepts `a@b`, whose domain contains
no dot, while the claimed grammar (at least one dot) rejects it. -/
theorem syntax_accepts_dotless_domain :
    validateBasicFormat "a@b" = true ∧ claimSyntaxAccepts "a@b" = false := by
  constructor <;> rfl

/-- C3 amended: the syntax stage accepts exactly one `@`, a non-empty local
part over the allowed class, and a domain of dot-separated labels of 1–63
alphanumeric-with-internal-hyphen characters — with zero or more dots, a
dotless single-label domain included. -/
theorem validateBasicFormat_characterization (s : String) :
    validateBasicFormat s = claimSyntaxAcceptsAmended s := by
  unfold validateBasicFormat claimSyntaxAcceptsAmended matchesDomain
  have hfun : matchesLabel = specLabelOk := funext matchesLabel_eq_specLabelOk
  rw [hfun]

/-- C4: once `validateDomain` reaches the lookup step (structural gates
passed) and the MX lookup fails: a successful A lookup yields exactly the one
no-MX warning and no deliverability error — with `isValid = true` (empty
errors) when the length check also passed — while a failing A lookup yields
the hard error "Domain does not exist or cannot receive emails". -/
theorem validateDomain_fallback_policy (r : Resolver) (d : String)
    (h₀ : (d.data.length == 0) = false)
    (h₁ : (!(d.data.contains '.') || d.data.getLast? == some '.') = false)
    (h₂ : ((d == "localhost") || isIPAddress d) = false)
    (hmx : exceptIsOk (r.mx d) = false) :
    (exceptIsOk (r.a d) = true →
      validateDomain r d = .ok {
        isValid := (if decide (d.data.length > 253) then
            ["Domain name is too long (maximum 253 characters)"] else ([] : List String)).isEmpty,
        errors := (if decide (d.data.length > 253) then
            ["Domain name is too long (maximum 253 characters)"] else []),
        warnings := ["Domain exists but has no MX record for email delivery"] } ∧
      "Domain does not exist or cannot receive emails" ∉
        (if decide (d.data.length > 253) then
            ["Domain name is too long (maximum 253 characters)"] else ([] : List String)) ∧
      (decide (d.data.length ≤ 253) = true →
        validateDomain r d = .ok {
          isValid := true, errors := [],
          warnings := ["Domain exists but has no MX record for email delivery"] })) ∧
    (exceptIsOk (r.a d) = false →
      validateDomain r d = .ok {
        isValid := false,
        errors := (if decide (d.data.length > 253) then
            ["Domain name is too long (maximum 253 characters)"] else []) ++
          ["Domain does not exist or cannot receive emails"],
        warnings := [] }) := by
  have hp₀ := h₀
  have hp₁ := h₁
  have hp₂ := h₂
  simp at hp₀ hp₁ hp₂
  cases hmxv : r.mx d with
  | ok u => rw [hmxv] at hmx; simp [exceptIsOk] at hmx
  | error em =>
    constructor
    · intro ha
      cases hav : r.a d with
      | error ea => rw [hav] at ha; simp [exceptIsOk] at ha
      | ok u =>
        refine ⟨?_, ?_, ?_⟩
        · unfold validateDomain
          dsimp only
          simp only [hmxv, hav]
          simp [hp₀, hp₁.1, hp₁.2, hp₂.1, hp₂.2]
        · by_cases hl : decide (d.data.length > 253) = true
          · simp only [hl, if_true]
            intro hmem
            simp only [List.mem_singleton] at hmem
            exact absurd hmem (by decide)
          · simp only [Bool.not_eq_true] at hl
            simp [hl]
        · intro hlen
          simp only [decide_eq_true_eq] at hlen
          have hl : ¬ d.data.length > 253 := by omega
          unfold validateDomain
          dsimp only
          simp only [hmxv, hav]
          simp [hp₀, hp₁.1, hp₁.2, hp₂.1, hp₂.2, hl]
          exact hlen
    · intro ha
      cases hav : r.a d with
      | ok u => rw [hav] at ha; simp [exceptIsOk] at ha
      | error ea =>
        unfold validateDomain
        dsimp only
        simp only [hmxv, hav]
        simp [hp₀, hp₁.1, hp₁.2, hp₂.1, hp₂.2]

/-- Witness for C4: MX times out, the A record resolves, the verdict of the
domain stage is the accepted-with-warning result. -/
theorem validateDomain_fallback_policy_witness :
    validateDomain mxDownResolver "kanzlei.de" =
      .ok { isValid := true, errors := [],
            warnings := ["Domain exists but has no MX record for email delivery"] } :=
  ((validateDomain_fallback_policy mxDownResolver "kanzlei.de"
      rfl rfl rfl rfl).1 rfl).2.2 (by rfl)

/-- C5: a syntactically valid address whose domain is in the disposable set is
rejected with the policy error for every resolver behaviour — a successful MX
lookup does not suppress it. -/
theorem validateEmail_disposable_rejected (r : Resolver) (e : String)
    (v : EmailValidationResult)
    (hs : validateBasicFormat (normalizeEmail e) = true)
    (hdisp : isDisposableEmail (emailDomain (normalizeEmail e)) = true)
    (h : validateEmail r e = .ok v) :
    v.isValid = false ∧
      "Disposable email addresses are not allowed. Please use a permanent email address." ∈
        v.errors := by
  obtain ⟨dres, hd⟩ := validateDomain_isOk r (emailDomain (normalizeEmail e))
  rw [validateEmail_main r e dres hs hd] at h
  simp only [Except.ok.injEq] at h
  subst h
  constructor
  · simp [hdisp]
  · simp [hdisp]

/-- Witness for C5: `bob@mailinator.com` with every lookup succeeding. -/
theorem validateEmail_disposable_rejected_witness :
    ({ isValid := false,
       errors := ["Disposable email addresses are not allowed. Please use a permanent email address."],
       warnings := [], suggestions := [] } : EmailValidationResult).isValid = false ∧
      "Disposable email addresses are not allowed. Please use a permanent email address." ∈
        ({ isValid := false,
           errors := ["Disposable email addresses are not allowed. Please use a permanent email address."],
           warnings := [], suggestions := [] } : EmailValidationResult).errors :=
  validateEmail_disposable_rejected allOkResolver "bob@mailinator.com" _ (by rfl) (by rfl) (by rfl)

/-- C6 counterexample: for `bob@gmial.com` the code emits the suggestion
"Did you mean: bob@gmail.com?" (capital D), not the string
"did you mean: bob@gmail.com?" stated by the claim. -/
theorem gmial_claim_counterexample :
    validateEmail allOkResolver "bob@gmial.com" =
      .ok { isValid := true, errors := [], warnings := [],
            suggestions := ["Did you mean: bob@gmail.com?"] } ∧
    ¬ (["Did you mean: bob@gmail.com?"] = ["did you mean: bob@gmail.com?"]) :=
  ⟨by rfl, by decide⟩

/-- C6 amended: for every syntactically valid address with domain `gmial.com`
and every resolver behaviour, the suggestion list is exactly the one string
"Did you mean: " ++ local ++ "@" ++ "gmail.com" ++ "?". -/
theorem gmial_suggestion (r : Resolver) (e : String) (v : EmailValidationResult)
    (hs : validateBasicFormat (normalizeEmail e) = true)
    (hdom : emailDomain (normalizeEmail e) = "gmial.com")
    (h : validateEmail r e = .ok v) :
    v.suggestions =
      ["Did you mean: " ++ emailLocalPart (normalizeEmail e) ++ "@" ++ "gmail.com" ++ "?"] := by
  obtain ⟨dres, hd⟩ := validateDomain_isOk r (emailDomain (normalizeEmail e))
  rw [validateEmail_main r e dres hs hd] at h
  simp only [Except.ok.injEq] at h
  subst h
  simp only [hdom]
  rfl

/-- Witness for C6 with both lookups failing for `gmial.com`. -/
theorem gmial_suggestion_witness :
    ({ isValid := false, errors := ["Domain does not exist or cannot receive emails"],
       warnings := [], suggestions := ["Did you mean: bob@gmail.com?"] } :
        EmailValidationResult).suggestions =
      ["Did you mean: " ++ emailLocalPart (normalizeEmail "bob@gmial.com") ++ "@" ++
        "gmail.com" ++ "?"] :=
  gmial_suggestion allFailResolver "bob@gmial.com" _ (by rfl) (by rfl) (by rfl)

/-- C7: after a successful syntax stage the error channel of the verdict is
exactly the local-part errors followed by the domain-stage errors followed by
the disposable-domain error when applicable — the stages run and accumulate
independently, neither suppressing the other. -/
theorem validateEmail_errors_accumulate (r : Resolver) (e : String)
    (v : EmailValidationResult) (dres : DomainStageResult)
    (hs : validateBasicFormat (normalizeEmail e) = true)
    (hd : validateDomain r (emailDomain (normalizeEmail e)) = .ok dres)
    (h : validateEmail r e = .ok v) :
    v.errors =
      (validateLocalPart (emailLocalPart (normalizeEmail e))).errors ++ dres.errors ++
        (if isDisposableEmail (emailDomain (normalizeEmail e)) then
          ["Disposable email addresses are not allowed. Please use a permanent email address."]
         else []) := by
  rw [validateEmail_main r e dres hs hd] at h
  simp only [Except.ok.injEq] at h
  subst h
  rfl

/-- Witness for C7: an input violating both the local-part rule (consecutive
dots) and domain deliverability carries both errors in one verdict. -/
theorem validateEmail_errors_accumulate_witness :
    ({ isValid := false,
       errors := ["Email address cannot contain consecutive dots",
                  "Domain does not exist or cannot receive emails"],
       warnings := [], suggestions := [] } : EmailValidationResult).errors =
      (validateLocalPart (emailLocalPart (normalizeEmail "tom..x@unresolvable.de"))).errors ++
        ({ isValid := false, errors := ["Domain does not exist or cannot receive emails"],
           warnings := [] } : DomainStageResult).errors ++
        (if isDisposableEmail (emailDomain (normalizeEmail "tom..x@unresolvable.de")) then
          ["Disposable email addresses are not allowed. Please use a permanent email address."]
         else []) :=
  validateEmail_errors_accumulate allFailResolver "tom..x@unresolvable.de" _ _
    (by rfl) (by rfl) (by rfl)

/-- C8: for every input and every resolver behaviour `validateEmail` returns a
verdict; no resolver failure escapes as an uncaught exception. -/
theorem validateEmail_total (r : Resolver) (e : String) :
    ∃ v, validateEmail r e = .ok v := by
  cases hb : validateBasicFormat (normalizeEmail e) with
  | false => exact ⟨_, validateEmail_syntaxFail r e hb⟩
  | true =>
    obtain ⟨dres, hd⟩ := validateDomain_isOk r (emailDomain (normalizeEmail e))
    exact ⟨_, validateEmail_main r e dres hb hd⟩

/-- C10: the synchronous quick check succeeds exactly when `validateEmail`
does not take the immediate-return branch carrying the single structural
error — both apply the same pattern to the same normalised input. -/
theorem validateEmailFormat_iff_pipeline (r : Resolver) (e : String) :
    validateEmailFormat e = true ↔
      ¬ (validateEmail r e =
          .ok { isValid := false, errors := ["Invalid email format"],
                warnings := [], suggestions := [] }) := by
  constructor
  · intro hf heq
    have hb : validateBasicFormat (normalizeEmail e) = true := hf
    obtain ⟨dres, hd⟩ := validateDomain_isOk r (emailDomain (normalizeEmail e))
    rw [validateEmail_main r e dres hb hd] at heq
    simp only [Except.ok.injEq, EmailValidationResult.mk.injEq] at heq
    obtain ⟨hv, herr, hw, hsug⟩ := heq
    have hmem : "Invalid email format" ∈
        (validateLocalPart (emailLocalPart (normalizeEmail e))).errors ++ dres.errors ++
          (if isDisposableEmail (emailDomain (normalizeEmail e)) then
            ["Disposable email addresses are not allowed. Please use a permanent email address."]
           else []) := by
      rw [herr]; simp
    simp only [List.mem_append] at hmem
    rcases hmem with (hmem | hmem) | hmem
    · rcases validateLocalPart_errors_mem _ _ hmem with h | h | h | h <;>
        exact absurd h (by decide)
    · rcases validateDomain_errors_mem r _ dres hd _ hmem with h | h | h | h | h <;>
        exact absurd h (by decide)
    · revert hmem
      split <;> simp
  · intro hne
    cases hb : validateBasicFormat (normalizeEmail e) with
    | true => exact hb
    | false => exact absurd (validateEmail_syntaxFail r e hb) hne
